import Mathlib

/-!
Verification development for the Tripo 3D Blender addon's generation task
orchestrator.  The definitions below are shallow embeddings of the polling
loop (src/utils.py receive_one), the retry wrapper (src/utils.py and
src/api.py retry_with_backoff), the balance refresh (src/utils.py
Update_User_balance), the registry bookkeeping (src/utils.py receive_one and
generation, src/task.py TaskPropertyGroup.update), the import path
(src/models.py ModelImporter.import_model, ResourceManager.cleanup) and the
upload validation (src/api.py upload_file, src/models.py
validate_image_file, src/config.py TripoConfig).
-/

namespace Tripo

/-- Task status values as used by src/utils.py receive_one: the recognized
in-flight values, the three terminal values, and a catch-all for any other
string the service could return. -/
inductive TaskStatus where
  | queued
  | running
  | success
  | failed
  | banned
  | other (s : String)
deriving DecidableEq, Repr

/-- Statuses on which the polling loop keeps polling (the
`status in [TaskStatus.QUEUED, TaskStatus.RUNNING]` test of
src/utils.py line 55). -/
def TaskStatus.isInFlight : TaskStatus → Bool
  | .queued => true
  | .running => true
  | _ => false

/-- The three terminal statuses of the data model. -/
def TaskStatus.isTerminal : TaskStatus → Bool
  | .success => true
  | .failed => true
  | .banned => true
  | _ => false

/-- One response of the status query (client.get_task in src/utils.py
line 25): the fields receive_one reads on every iteration. -/
structure TaskResp where
  status : TaskStatus
  progress : Nat
  running_left_time : Option ℚ
deriving DecidableEq, Repr

/-- Next polling delay, src/utils.py lines 60-64: when the response carried
running_left_time the delay is max(2, running_left_time * 0.5), otherwise the
previous delay is doubled. -/
def next_polling_interval (polling_interval : ℚ) (running_left_time : Option ℚ) : ℚ :=
  match running_left_time with
  | some t => max 2 (t * (1 / 2))
  | none => polling_interval * 2

/-- How a run of the polling loop ends: Success returns the final response,
Failed/Banned/unrecognized statuses raise a TripoAPIError with the given
code, and pending stands for a run observed before any terminal status. -/
inductive PollOutcome where
  | success (resp : TaskResp)
  | apiError (code : String)
  | pending
deriving DecidableEq, Repr

/-- Observable effects of one run of receive_one: its outcome, the statuses
written into the task's registry entry in order, the delays slept in order,
and the user_balance update performed on success (none = unchanged). -/
structure PollRun where
  outcome : PollOutcome
  writes : List TaskStatus
  sleeps : List ℚ
  balance : Option ℚ
deriving DecidableEq, Repr

/-- Body of Update_User_balance (src/utils.py lines 112-118): the balance
fetch sits inside a try/except that logs and swallows every exception, so a
failed fetch leaves the scene balance unchanged (none) and raises nothing. -/
def update_user_balance_body (getBalance : Except String ℚ) : Option ℚ :=
  match getBalance with
  | .ok b => some b
  | .error _ => none

/-- The polling loop of receive_one (src/utils.py lines 22-65), driven by
the list of successive get_task responses.  Each iteration first writes the
fetched status into the registry entry, then resolves: Success performs the
best-effort balance refresh and returns, Failed/Banned raise typed
TripoAPIErrors, any unrecognized status raises UNKNOWN_STATUS, and
Queued/Running compute the next delay and sleep. -/
def receive_one_loop (getBalance : Except String ℚ) :
    ℚ → List TaskResp → PollRun
  | _, [] => ⟨.pending, [], [], none⟩
  | polling_interval, r :: rest =>
    match r.status with
    | .success => ⟨.success r, [r.status], [], update_user_balance_body getBalance⟩
    | .failed => ⟨.apiError "TASK_FAILED", [r.status], [], none⟩
    | .banned => ⟨.apiError "TASK_BANNED", [r.status], [], none⟩
    | .other _ => ⟨.apiError "UNKNOWN_STATUS", [r.status], [], none⟩
    | .queued =>
      let d := next_polling_interval polling_interval r.running_left_time
      let k := receive_one_loop getBalance d rest
      ⟨k.outcome, r.status :: k.writes, d :: k.sleeps, k.balance⟩
    | .running =>
      let d := next_polling_interval polling_interval r.running_left_time
      let k := receive_one_loop getBalance d rest
      ⟨k.outcome, r.status :: k.writes, d :: k.sleeps, k.balance⟩

/-- receive_one starts with polling_interval = 2 (src/utils.py line 22). -/
def receive_one (getBalance : Except String ℚ) (resps : List TaskResp) : PollRun :=
  receive_one_loop getBalance 2 resps

/-- Outcome of the retry wrapper: the final result, how many times the
wrapped operation was invoked, and the delays slept between attempts. -/
structure RetryOutcome (E A : Type) where
  result : Except E A
  calls : Nat
  sleeps : List Nat
deriving Repr

/-- The retry wrapper retry_with_backoff (src/utils.py lines 82-108 and
src/api.py lines 12-29): up to max_retries = 3 attempts, initial delay 1s,
doubled after each sleep, sleeping only between attempts.  `op k` is the
k-th invocation's result; `catchable` tells which error classes the except
clause catches (src/utils.py catches every Exception, src/api.py only
RequestException and TripoAPIError); an uncaught error propagates at once.
The loop is unrolled for the constant max_retries = 3. -/
def retry_with_backoff {E A : Type} (op : Nat → Except E A) (catchable : E → Bool) :
    RetryOutcome E A :=
  match op 0 with
  | .ok a => ⟨.ok a, 1, []⟩
  | .error e0 =>
    if catchable e0 then
      match op 1 with
      | .ok a => ⟨.ok a, 2, [1]⟩
      | .error e1 =>
        if catchable e1 then
          match op 2 with
          | .ok a => ⟨.ok a, 3, [1, 2]⟩
          | .error e2 => ⟨.error e2, 3, [1, 2]⟩
        else ⟨.error e1, 2, [1]⟩
    else ⟨.error e0, 1, []⟩

/-- Update_User_balance (src/utils.py lines 111-118) carries the
retry_with_backoff decorator; its body never raises (it catches and logs),
so the wrapper sees a success on the first call. -/
def Update_User_balance (getBalance : Except String ℚ) :
    RetryOutcome String (Option ℚ) :=
  retry_with_backoff (fun _ => Except.ok (update_user_balance_body getBalance))
    (fun _ => true)

/-- Error classes that can come out of an HTTP call in src/api.py:
requests.exceptions.RequestException, TripoAPIError, and any other
exception class. -/
inductive ApiErr where
  | requestException (msg : String)
  | tripoAPIError (msg : String)
  | otherError (msg : String)
deriving DecidableEq, Repr

/-- The except clause of src/api.py's retry_with_backoff (line 21) catches
exactly RequestException and TripoAPIError. -/
def ApiErr.caught : ApiErr → Bool
  | .requestException _ => true
  | .tripoAPIError _ => true
  | .otherError _ => false

/-- fetch_data (src/api.py lines 32-53) is defined under the
retry_with_backoff decorator: every call runs the raw HTTP request through
the retry wrapper. -/
def fetch_data {J : Type} (raw : Nat → Except ApiErr J) : RetryOutcome ApiErr J :=
  retry_with_backoff raw ApiErr.caught

/-- The status query of one polling-loop iteration (src/api.py line 151,
`data = fetch_data(base_url, headers_tuple)`): the value or error the
polling loop sees is whatever comes out of the retry wrapper. -/
def poll_status_query {J : Type} (raw : Nat → Except ApiErr J) : Except ApiErr J :=
  (fetch_data raw).result

/-- Modelled from the spec: TripoClient.get_task, called by the polling loop
at src/utils.py line 25, lives in the bundled tripo3d client package whose
source is not among these files.  Per the spec ("Query job status via
RemoteJobClient.getStatus(jobId), wrapped in RetryPolicy"; "the policy does
not distinguish error classes") the call goes through the retry wrapper with
every error class retried alike. -/
def tripo_client_get_task (raw : Nat → Except String TaskResp) :
    RetryOutcome String TaskResp :=
  retry_with_backoff raw (fun _ => true)

/-- One entry of the scene's task registry (scene.tripo_tasks, a collection
of src/task.py TaskPropertyGroup): its id and status, with the property
group's default status "not initialized". -/
structure TaskEntry where
  task_id : String
  status : String
deriving DecidableEq, Repr

/-- The entry lookup at the top of receive_one (src/utils.py lines 13-21):
scan scene.tripo_tasks for an entry with the given id and reuse it; only
when none exists append a fresh entry carrying that id. -/
def receive_one_register (reg : List TaskEntry) (tid : String) : List TaskEntry :=
  if reg.any (fun t => t.task_id = tid) then reg
  else reg ++ [⟨tid, "not initialized"⟩]

/-- The entry creation in generation (src/utils.py lines 125-126 with the
init calls at 150, 165, 188, 192): scene.tripo_tasks.add() appends a new
entry unconditionally, with no lookup of an existing entry for the id. -/
def generation_register (reg : List TaskEntry) (tid : String) : List TaskEntry :=
  reg ++ [⟨tid, "not initialized"⟩]

/-- Fields of one registry entry that TaskPropertyGroup.update can touch. -/
structure TaskState where
  status : String
  progress : Nat
  render_image : Option String
  running_left_time : ℚ
deriving DecidableEq, Repr

/-- TaskPropertyGroup.update (src/task.py lines 27-35): each field is
written only when the corresponding argument is not None. -/
def TaskPropertyGroup_update (t : TaskState) (status : Option String)
    (progress : Option Nat) (render_image : Option String)
    (running_left_time : Option ℚ) : TaskState :=
  { status := match status with
      | some s => s
      | none => t.status
    progress := match progress with
      | some p => p
      | none => t.progress
    render_image := match render_image with
      | some v => some v
      | none => t.render_image
    running_left_time := match running_left_time with
      | some q => q
      | none => t.running_left_time }

/-- Observable effects of one ModelImporter.import_model call: the boolean
it returns, whether the import callback was registered on the main thread,
whether an error dialog was shown, and whether the lock was released by this
call (it is only released when this call acquired it). -/
structure ImportOutcome where
  returned : Bool
  importScheduled : Bool
  errorShown : Bool
  lockReleased : Bool
deriving DecidableEq, Repr

/-- ModelImporter.import_model (src/models.py lines 100-172).  The
process-wide _import_lock is acquired with blocking=False (line 109): when
the lock is already held the call shows the dialog "Already importing a
model. Please wait." and returns False immediately, scheduling no import.
Otherwise the model is downloaded (downloadOk abstracts the HTTP result),
the import callback and the delayed temp-file cleanup are registered on the
main thread, and the finally clause releases the lock on every exit path. -/
def ModelImporter_import_model (lockHeld : Bool) (downloadOk : Bool) : ImportOutcome :=
  if lockHeld then
    ⟨false, false, true, false⟩
  else if downloadOk then
    ⟨true, true, false, true⟩
  else
    ⟨false, false, true, true⟩

/-- The filesystem as the list of currently existing paths; os.unlink either
removes every occurrence of the path or raises (the paths in `failing`
model deletion failures such as permission errors). -/
def os_unlink (failing : String → Bool) (fs : List String) (p : String) :
    Except String (List String) :=
  if failing p then .error p else .ok (fs.filter (fun q => q ≠ p))

/-- One iteration of the loop in ResourceManager.cleanup (src/models.py
lines 21-26): if os.path.exists(file_path) then os.unlink(file_path), with
the whole body inside a try/except that logs the exception instead of
letting it escape.  Returns the new filesystem and the logged failure if
any. -/
def cleanup_one (failing : String → Bool) (fs : List String) (p : String) :
    List String × Option String :=
  if p ∈ fs then
    match os_unlink failing fs p with
    | .ok fsNew => (fsNew, none)
    | .error e => (fs, some e)
  else (fs, none)

/-- Result of ResourceManager.cleanup: remaining filesystem, the logged
deletion failures in order, and the manager's temp_files list afterwards. -/
structure CleanupResult where
  fs : List String
  log : List String
  temp_files : List String
deriving DecidableEq, Repr

/-- ResourceManager.cleanup (src/models.py lines 19-27): iterate over the
recorded temp_files best-effort (every exception in the body is caught and
logged), then reset temp_files to the empty list.  The function is total:
no branch raises. -/
def ResourceManager_cleanup (failing : String → Bool) :
    List String → List String → CleanupResult
  | [], fs => ⟨fs, [], []⟩
  | p :: rest, fs =>
    let step := cleanup_one failing fs p
    let k := ResourceManager_cleanup failing rest step.1
    ⟨k.fs, step.2.toList ++ k.log, []⟩

/-- TripoConfig.MAX_FILE_SIZE (src/config.py line 100): 10 MB in bytes. -/
def MAX_FILE_SIZE : Nat := 10 * 1024 * 1024

/-- The keys of TripoConfig.SUPPORTED_FILE_TYPES (src/config.py
lines 93-98). -/
def SUPPORTED_FILE_TYPES : List String := ["jpg", "jpeg", "png", "webp"]

/-- ASCII lowercase of one character, the behaviour of str.lower on the
ASCII file extensions the validation compares against. -/
def lowerChar (c : Char) : Char :=
  if 65 ≤ c.toNat ∧ c.toNat ≤ 90 then Char.ofNat (c.toNat + 32) else c

/-- The .lower() call of src/api.py line 82 applied to the extension. -/
def lowerString (s : String) : String :=
  ⟨s.data.map lowerChar⟩

/-- The facts about a candidate upload path that upload_file inspects:
os.path.exists, os.path.getsize, and the extension produced by
os.path.splitext(file_path)[1][1:] (before lowering). -/
structure FileInfo where
  existsOnDisk : Bool
  size : Nat
  ext : String
deriving DecidableEq, Repr

/-- What upload_file does with its input: raise TripoValidationError before
any network activity, or send the HTTP upload request (carrying the
lowercased extension used to select the mime type). -/
inductive UploadResult where
  | validationError (msg : String)
  | requestSent (ext : String)
deriving DecidableEq, Repr

/-- upload_file (src/api.py lines 56-105): validate existence, then size
(strictly above MAX_FILE_SIZE rejects), then the lowercased extension
against SUPPORTED_FILE_TYPES, raising TripoValidationError at the first
failed check; only when all three pass is requests.post reached.
src/models.py validate_image_file (lines 280-302) performs the same three
checks in the same order. -/
def upload_file (f : FileInfo) : UploadResult :=
  if f.existsOnDisk = false then
    .validationError "File not found"
  else if MAX_FILE_SIZE < f.size then
    .validationError "File size exceeds maximum allowed size"
  else if (SUPPORTED_FILE_TYPES.contains (lowerString f.ext)) = false then
    .validationError "Unsupported file type"
  else
    .requestSent (lowerString f.ext)

theorem receive_one_loop_noest_sleeps (gb : Except String ℚ) (d : ℚ) (n : Nat) :
    (receive_one_loop gb d (List.replicate n ⟨.queued, 0, none⟩)).sleeps =
      (List.range n).map (fun k => d * 2 ^ (k + 1)) := by
  induction n generalizing d with
  | zero => rfl
  | succ n ih =>
    rw [List.replicate_succ]
    simp only [receive_one_loop, next_polling_interval]
    rw [ih (d * 2), List.range_succ_eq_map, List.map_cons, List.map_map]
    refine List.cons_eq_cons.mpr ⟨by ring, ?_⟩
    refine List.map_congr_left fun k _ => ?_
    simp only [Function.comp_apply, Nat.succ_eq_add_one]
    ring

/-- C1: on every polling iteration where the status is Queued or Running the
delay slept before the next query is next_polling_interval applied to the
previous delay and the response's estimate: max(2, estimate * 0.5) seconds
when the server supplied an estimate, otherwise double the previous delay,
the doubling being seeded at the initial interval 2; in particular an
estimate of 10 gives 5 seconds and no estimate after a previous delay of 4
gives 8 seconds, and with no estimate ever supplied the successive delays
from the start of the run are 2 * 2 ^ (k + 1). -/
theorem polling_backoff_spec (gb : Except String ℚ) (interval : ℚ) (r : TaskResp)
    (rest : List TaskResp) (h : r.status = .queued ∨ r.status = .running) :
    (receive_one_loop gb interval (r :: rest)).sleeps =
      next_polling_interval interval r.running_left_time ::
        (receive_one_loop gb (next_polling_interval interval r.running_left_time) rest).sleeps ∧
    (∀ t : ℚ, next_polling_interval interval (some t) = max 2 (t * (1 / 2))) ∧
    next_polling_interval interval none = interval * 2 ∧
    next_polling_interval interval (some 10) = 5 ∧
    next_polling_interval 4 none = 8 ∧
    receive_one gb (r :: rest) = receive_one_loop gb 2 (r :: rest) ∧
    (∀ n : Nat, (receive_one gb (List.replicate n ⟨.queued, 0, none⟩)).sleeps =
      (List.range n).map (fun k => 2 * 2 ^ (k + 1))) := by
  refine ⟨?_, fun t => rfl, rfl, ?_, ?_, rfl, fun n => receive_one_loop_noest_sleeps gb 2 n⟩
  · obtain ⟨s, p, e⟩ := r
    rcases h with h | h <;> simp_all [receive_one_loop]
  · show max 2 (10 * (1 / 2) : ℚ) = 5
    norm_num
  · show (4 : ℚ) * 2 = 8
    norm_num

theorem polling_backoff_spec_witness :
    (receive_one_loop (Except.ok 0) 2 [⟨.queued, 0, some 10⟩]).sleeps =
      next_polling_interval 2 (some 10) ::
        (receive_one_loop (Except.ok 0) (next_polling_interval 2 (some 10)) []).sleeps ∧
    next_polling_interval 2 (some 10) = 5 :=
  ⟨(polling_backoff_spec (Except.ok 0) 2 ⟨.queued, 0, some 10⟩ [] (Or.inl rfl)).1,
   (polling_backoff_spec (Except.ok 0) 2 ⟨.queued, 0, some 10⟩ [] (Or.inl rfl)).2.2.2.1⟩

/-- C3: the retry wrapper invokes the operation at most 3 times, returns the
operation's value upon its first success, raises exactly the third error
unchanged when all three attempts fail, and sleeps 1 second then 2 seconds
only between consecutive attempts, never after the final failure; the
src/utils.py wrapper catches every Exception, so this holds for every
failing operation whatever the class of the errors it raises. -/
theorem retry_policy_spec (E A : Type) (op : Nat → Except E A) :
    (retry_with_backoff op (fun _ => true)).calls ≤ 3 ∧
    (∀ a, op 0 = .ok a →
      retry_with_backoff op (fun _ => true) = ⟨.ok a, 1, []⟩) ∧
    (∀ e0 a, op 0 = .error e0 → op 1 = .ok a →
      retry_with_backoff op (fun _ => true) = ⟨.ok a, 2, [1]⟩) ∧
    (∀ e0 e1 a, op 0 = .error e0 → op 1 = .error e1 → op 2 = .ok a →
      retry_with_backoff op (fun _ => true) = ⟨.ok a, 3, [1, 2]⟩) ∧
    (∀ e0 e1 e2, op 0 = .error e0 → op 1 = .error e1 → op 2 = .error e2 →
      retry_with_backoff op (fun _ => true) = ⟨.error e2, 3, [1, 2]⟩) := by
  cases h0 : op 0 <;> cases h1 : op 1 <;> cases h2 : op 2 <;>
    simp_all [retry_with_backoff]

theorem retry_policy_spec_witness :
    retry_with_backoff (fun k => (Except.error k : Except Nat Nat)) (fun _ => true) =
      ⟨Except.error 2, 3, [1, 2]⟩ :=
  (retry_policy_spec Nat Nat (fun k => Except.error k)).2.2.2.2 0 1 2 rfl rfl rfl

theorem receive_one_loop_queued (gb : Except String ℚ) (d : ℚ) (p : Nat)
    (e : Option ℚ) (rest : List TaskResp) :
    receive_one_loop gb d (⟨.queued, p, e⟩ :: rest) =
      ⟨(receive_one_loop gb (next_polling_interval d e) rest).outcome,
       .queued :: (receive_one_loop gb (next_polling_interval d e) rest).writes,
       next_polling_interval d e ::
         (receive_one_loop gb (next_polling_interval d e) rest).sleeps,
       (receive_one_loop gb (next_polling_interval d e) rest).balance⟩ := rfl

theorem receive_one_loop_running (gb : Except String ℚ) (d : ℚ) (p : Nat)
    (e : Option ℚ) (rest : List TaskResp) :
    receive_one_loop gb d (⟨.running, p, e⟩ :: rest) =
      ⟨(receive_one_loop gb (next_polling_interval d e) rest).outcome,
       .running :: (receive_one_loop gb (next_polling_interval d e) rest).writes,
       next_polling_interval d e ::
         (receive_one_loop gb (next_polling_interval d e) rest).sleeps,
       (receive_one_loop gb (next_polling_interval d e) rest).balance⟩ := rfl

theorem terminal_write_last_aux (gb : Except String ℚ) :
    ∀ (rs : List TaskResp) (d : ℚ) (i : Nat),
      i < (receive_one_loop gb d rs).writes.length →
      ((receive_one_loop gb d rs).writes.getD i .queued).isTerminal = true →
      i + 1 = (receive_one_loop gb d rs).writes.length := by
  intro rs
  induction rs with
  | nil =>
    intro d i h ht
    simp [receive_one_loop] at h
  | cons r rest ih =>
    obtain ⟨s, p, e⟩ := r
    intro d i h ht
    cases s with
    | queued =>
      rw [receive_one_loop_queued] at h ht ⊢
      cases i with
      | zero => simp [TaskStatus.isTerminal] at ht
      | succ j =>
        have h' : j < (receive_one_loop gb (next_polling_interval d e) rest).writes.length := by
          simp only [List.length_cons] at h
          omega
        have hj := ih (next_polling_interval d e) j h' (by simpa using ht)
        simp only [List.length_cons]
        omega
    | running =>
      rw [receive_one_loop_running] at h ht ⊢
      cases i with
      | zero => simp [TaskStatus.isTerminal] at ht
      | succ j =>
        have h' : j < (receive_one_loop gb (next_polling_interval d e) rest).writes.length := by
          simp only [List.length_cons] at h
          omega
        have hj := ih (next_polling_interval d e) j h' (by simpa using ht)
        simp only [List.length_cons]
        omega
    | success =>
      simp only [receive_one_loop, List.length_cons, List.length_nil] at h ⊢
      omega
    | failed =>
      simp only [receive_one_loop, List.length_cons, List.length_nil] at h ⊢
      omega
    | banned =>
      simp only [receive_one_loop, List.length_cons, List.length_nil] at h ⊢
      omega
    | other u =>
      simp only [receive_one_loop, List.length_cons, List.length_nil] at h ⊢
      omega

/-- C4: once the polling loop has written a terminal status (Success, Failed
or Banned) into the job's registry entry, no further status write to that
entry occurs: a terminal write is always the final write of the run, and the
render-image update performed after a successful run goes through
TaskPropertyGroup.update with status None, which leaves the status field
untouched. -/
theorem terminal_status_write_is_last (gb : Except String ℚ) (rs : List TaskResp)
    (i : Nat) (h : i < (receive_one gb rs).writes.length)
    (ht : ((receive_one gb rs).writes.getD i .queued).isTerminal = true) :
    i + 1 = (receive_one gb rs).writes.length ∧
    (∀ (t : TaskState) (img : String),
      (TaskPropertyGroup_update t none none (some img) none).status = t.status) :=
  ⟨terminal_write_last_aux gb rs 2 i h ht, fun _ _ => rfl⟩

theorem terminal_status_write_is_last_witness :
    1 + 1 = (receive_one (Except.ok 0)
      [⟨.running, 0, none⟩, ⟨.success, 100, none⟩]).writes.length :=
  (terminal_status_write_is_last (Except.ok 0)
    [⟨.running, 0, none⟩, ⟨.success, 100, none⟩] 1 (by decide) (by decide)).1

/-- C5: a Failed status makes the run raise the typed TripoAPIError with
code TASK_FAILED, a Banned status the one with code TASK_BANNED (a distinct
error kind), and any status outside the recognized set the one with code
UNKNOWN_STATUS; in each case the run ends at once, with nothing further
slept or written. -/
theorem terminal_error_kinds (gb : Except String ℚ) (d : ℚ) (r : TaskResp)
    (rest : List TaskResp) :
    (r.status = .failed →
      receive_one_loop gb d (r :: rest) =
        ⟨.apiError "TASK_FAILED", [.failed], [], none⟩) ∧
    (r.status = .banned →
      receive_one_loop gb d (r :: rest) =
        ⟨.apiError "TASK_BANNED", [.banned], [], none⟩) ∧
    PollOutcome.apiError "TASK_BANNED" ≠ PollOutcome.apiError "TASK_FAILED" ∧
    (∀ u, r.status = .other u →
      receive_one_loop gb d (r :: rest) =
        ⟨.apiError "UNKNOWN_STATUS", [.other u], [], none⟩) := by
  obtain ⟨s, p, e⟩ := r
  refine ⟨fun hs => ?_, fun hs => ?_, by simp, fun u hu => ?_⟩
  · replace hs : s = TaskStatus.failed := hs
    subst hs
    rfl
  · replace hs : s = TaskStatus.banned := hs
    subst hs
    rfl
  · replace hu : s = TaskStatus.other u := hu
    subst hu
    rfl

theorem terminal_error_kinds_witness :
    receive_one_loop (Except.ok 0) 2 [⟨.banned, 0, none⟩] =
      ⟨.apiError "TASK_BANNED", [.banned], [], none⟩ :=
  (terminal_error_kinds (Except.ok 0) 2 ⟨.banned, 0, none⟩ []).2.1 rfl

/-- C8: when the status query reports Success the run performs the balance
refresh and returns the completed task descriptor; the refresh carries the
retry_with_backoff decorator and its body never raises (it catches and
logs), so even a failing balance fetch leaves the balance unchanged while
the run still returns the completed task. -/
theorem balance_refresh_best_effort (gb : Except String ℚ) (d : ℚ) (r : TaskResp)
    (rest : List TaskResp) (h : r.status = .success) :
    (receive_one_loop gb d (r :: rest)).outcome = .success r ∧
    (Update_User_balance gb).result = .ok (update_user_balance_body gb) ∧
    (Update_User_balance gb).calls = 1 ∧
    (∀ e, gb = .error e → (receive_one_loop gb d (r :: rest)).balance = none) ∧
    (∀ b, gb = .ok b → (receive_one_loop gb d (r :: rest)).balance = some b) := by
  obtain ⟨s, p, e⟩ := r
  replace h : s = TaskStatus.success := h
  subst h
  refine ⟨rfl, rfl, rfl, ?_, ?_⟩
  · rintro e rfl
    rfl
  · rintro b rfl
    rfl

theorem balance_refresh_best_effort_witness :
    (receive_one_loop (Except.error "down") 2 [⟨.success, 100, none⟩]).outcome =
      PollOutcome.success ⟨.success, 100, none⟩ :=
  (balance_refresh_best_effort (Except.error "down") 2 ⟨.success, 100, none⟩ [] rfl).1

theorem retry_with_backoff_calls_le {E A : Type} (op : Nat → Except E A)
    (c : E → Bool) : (retry_with_backoff op c).calls ≤ 3 := by
  unfold retry_with_backoff
  cases op 0 with
  | ok a => simp
  | error e0 =>
    cases hc0 : c e0 with
    | false => simp [hc0]
    | true =>
      simp only [hc0, if_true]
      cases op 1 with
      | ok a => simp
      | error e1 =>
        cases hc1 : c e1 with
        | false => simp [hc1]
        | true =>
          simp only [hc1, if_true]
          cases op 2 <;> simp

theorem retry_with_backoff_error_cases {E A : Type} (op : Nat → Except E A)
    (c : E → Bool) (e : E)
    (he : (retry_with_backoff op c).result = .error e) :
    ((retry_with_backoff op c).calls = 3 ∧ op 2 = .error e) ∨
    (c e = false ∧ op ((retry_with_backoff op c).calls - 1) = .error e) := by
  cases h0 : op 0 with
  | ok a => simp [retry_with_backoff, h0] at he
  | error e0 =>
    cases hc0 : c e0 with
    | false =>
      have hr : retry_with_backoff op c = ⟨.error e0, 1, []⟩ := by
        simp [retry_with_backoff, h0, hc0]
      rw [hr] at he ⊢
      simp only [Except.error.injEq] at he
      subst he
      exact Or.inr ⟨hc0, by simpa using h0⟩
    | true =>
      cases h1 : op 1 with
      | ok a =>
        have hr : retry_with_backoff op c = ⟨.ok a, 2, [1]⟩ := by
          simp [retry_with_backoff, h0, hc0, h1]
        rw [hr] at he
        simp at he
      | error e1 =>
        cases hc1 : c e1 with
        | false =>
          have hr : retry_with_backoff op c = ⟨.error e1, 2, [1]⟩ := by
            simp [retry_with_backoff, h0, hc0, h1, hc1]
          rw [hr] at he ⊢
          simp only [Except.error.injEq] at he
          subst he
          exact Or.inr ⟨hc1, by simpa using h1⟩
        | true =>
          cases h2 : op 2 with
          | ok a =>
            have hr : retry_with_backoff op c = ⟨.ok a, 3, [1, 2]⟩ := by
              simp [retry_with_backoff, h0, hc0, h1, hc1, h2]
            rw [hr] at he
            simp at he
          | error e2 =>
            have hr : retry_with_backoff op c = ⟨.error e2, 3, [1, 2]⟩ := by
              simp [retry_with_backoff, h0, hc0, h1, hc1, h2]
            rw [hr] at he ⊢
            simp only [Except.error.injEq] at he
            subst he
            exact Or.inl ⟨rfl, rfl⟩

/-- C7: every status query of the polling loops goes through the retry
wrapper before any error reaches the polling engine: the src/api.py loop
queries through fetch_data, which is defined under the retry_with_backoff
decorator, so a retryable failure of a single request followed by a success
is absorbed, at most 3 invocations occur, and any error the loop sees is
the one the wrapper propagated (the third attempt's error after exhaustion,
or an uncaught error class observed on the wrapper's final invocation); the
spec-modelled tripo3d client call of the src/utils.py loop behaves likewise
with every error class retried. -/
theorem status_query_retried (J : Type) (raw : Nat → Except ApiErr J)
    (raw2 : Nat → Except String TaskResp) :
    (∀ e0 v, raw 0 = .error e0 → e0.caught = true → raw 1 = .ok v →
      poll_status_query raw = .ok v) ∧
    (fetch_data raw).calls ≤ 3 ∧
    (∀ e, poll_status_query raw = .error e →
      ((fetch_data raw).calls = 3 ∧ raw 2 = .error e) ∨
      (e.caught = false ∧ raw ((fetch_data raw).calls - 1) = .error e)) ∧
    (∀ e0 v, raw2 0 = .error e0 → raw2 1 = .ok v →
      (tripo_client_get_task raw2).result = .ok v) := by
  refine ⟨?_, retry_with_backoff_calls_le raw ApiErr.caught, ?_, ?_⟩
  · intro e0 v h0 hc h1
    simp [poll_status_query, fetch_data, retry_with_backoff, h0, hc, h1]
  · intro e he
    exact retry_with_backoff_error_cases raw ApiErr.caught e he
  · intro e0 v h0 h1
    simp [tripo_client_get_task, retry_with_backoff, h0, h1]

theorem status_query_retried_witness :
    poll_status_query
      (fun k => if k = 0 then Except.error (ApiErr.requestException "timeout")
                else Except.ok 42) = Except.ok 42 :=
  (status_query_retried Nat
      (fun k => if k = 0 then Except.error (ApiErr.requestException "timeout")
                else Except.ok 42)
      (fun _ => Except.error "unused")).1
    (ApiErr.requestException "timeout") 42 rfl rfl rfl

/-- C2 counterexample: a call of ModelImporter.import_model made while the
single-flight lock is already held (with a download that would succeed)
schedules no import and returns False: the invocation fails instead of
waiting for the lock. -/
theorem import_lock_busy_counterexample :
    ¬ ((ModelImporter_import_model true true).importScheduled = true ∧
       (ModelImporter_import_model true true).returned = true) := by
  decide

/-- C2 amended: a call made while the process-wide import lock is held fails
fast instead of waiting: the non-blocking acquire fails, the error dialog is
shown, False is returned, no import is scheduled (that completed job's
model import is dropped) and the lock is left to its holder; a call finding the
lock free schedules the import when the download succeeds, shows the error
dialog when it fails, and releases the lock on both exit paths. -/
theorem import_single_flight (dl : Bool) :
    ModelImporter_import_model true dl = ⟨false, false, true, false⟩ ∧
    (dl = true → ModelImporter_import_model false dl = ⟨true, true, false, true⟩) ∧
    (dl = false → ModelImporter_import_model false dl = ⟨false, false, true, true⟩) := by
  cases dl <;> decide

theorem import_single_flight_witness :
    ModelImporter_import_model false true = ⟨true, true, false, true⟩ :=
  (import_single_flight true).2.1 rfl

/-- C6 counterexample: recording the same job id twice through generation
(the attach-to-a-known-id path, src/utils.py lines 125-126 and 192) leaves
the registry with two entries carrying that id. -/
theorem registry_duplicate_counterexample :
    ¬ ((generation_register (generation_register [] "t1") "t1").map
        TaskEntry.task_id).Nodup := by
  decide

/-- C6 amended: the polling path upserts by id — receive_one reuses an
existing entry with the id and otherwise appends exactly one new entry, so
it preserves registry id-uniqueness and records the id — but generation
always appends one fresh entry without any lookup, so recording the same
job id twice through generation leaves two entries with that id: the
registry is not guaranteed to hold at most one entry per id. -/
theorem registry_upsert_spec (reg : List TaskEntry) (tid : String)
    (h : (reg.map TaskEntry.task_id).Nodup) :
    ((receive_one_register reg tid).map TaskEntry.task_id).Nodup ∧
    tid ∈ (receive_one_register reg tid).map TaskEntry.task_id ∧
    (generation_register reg tid).length = reg.length + 1 ∧
    (generation_register reg tid).map TaskEntry.task_id =
      reg.map TaskEntry.task_id ++ [tid] := by
  refine ⟨?_, ?_, by simp [generation_register], by simp [generation_register]⟩
  · unfold receive_one_register
    by_cases hc : reg.any (fun t => t.task_id = tid) = true
    · rw [if_pos hc]
      exact h
    · rw [if_neg hc, List.map_append, List.nodup_append]
      refine ⟨h, by simp, ?_⟩
      intro x hx hmem
      simp only [List.map_cons, List.map_nil, List.mem_singleton] at hmem
      subst hmem
      apply hc
      rw [List.any_eq_true]
      obtain ⟨t, htmem, hteq⟩ := List.mem_map.mp hx
      exact ⟨t, htmem, by simp [hteq]⟩
  · unfold receive_one_register
    by_cases hc : reg.any (fun t => t.task_id = tid) = true
    · rw [if_pos hc]
      rw [List.any_eq_true] at hc
      obtain ⟨t, htmem, hteq⟩ := hc
      exact List.mem_map.mpr ⟨t, htmem, by simpa using hteq⟩
    · rw [if_neg hc]
      simp

theorem registry_upsert_spec_witness :
    (((receive_one_register [] "t1").map TaskEntry.task_id).Nodup ∧
      "t1" ∈ (receive_one_register [] "t1").map TaskEntry.task_id) :=
  ⟨(registry_upsert_spec [] "t1" (by simp)).1,
   (registry_upsert_spec [] "t1" (by simp)).2.1⟩

theorem cleanup_one_subset (failing : String → Bool) (fs : List String) (p q : String)
    (h : q ∈ (cleanup_one failing fs p).1) : q ∈ fs := by
  by_cases hp : p ∈ fs
  · by_cases hf : failing p = true
    · simpa [cleanup_one, os_unlink, hp, hf] using h
    · have h1 : (cleanup_one failing fs p).1 = fs.filter (fun r => r ≠ p) := by
        simp [cleanup_one, os_unlink, hp, hf]
      rw [h1] at h
      exact List.mem_of_mem_filter h
  · simpa [cleanup_one, hp] using h

theorem cleanup_fs_subset (failing : String → Bool) :
    ∀ (tf fs : List String) (q : String),
      q ∈ (ResourceManager_cleanup failing tf fs).fs → q ∈ fs := by
  intro tf
  induction tf with
  | nil =>
    intro fs q hq
    simpa [ResourceManager_cleanup] using hq
  | cons p rest ih =>
    intro fs q hq
    have hq2 : q ∈ (ResourceManager_cleanup failing rest (cleanup_one failing fs p).1).fs := by
      simpa [ResourceManager_cleanup] using hq
    exact cleanup_one_subset failing fs p q (ih _ q hq2)

theorem cleanup_removes (failing : String → Bool) :
    ∀ (tf fs : List String) (p : String), p ∈ tf → failing p = false →
      p ∉ (ResourceManager_cleanup failing tf fs).fs := by
  intro tf
  induction tf with
  | nil =>
    intro fs p hp
    simp at hp
  | cons p0 rest ih =>
    intro fs p hp hf hmem
    have hmem2 : p ∈ (ResourceManager_cleanup failing rest (cleanup_one failing fs p0).1).fs := by
      simpa [ResourceManager_cleanup] using hmem
    rcases List.mem_cons.mp hp with h | h
    · subst h
      have hstep : p ∉ (cleanup_one failing fs p).1 := by
        by_cases hpfs : p ∈ fs
        · have h1 : (cleanup_one failing fs p).1 = fs.filter (fun r => r ≠ p) := by
            simp [cleanup_one, os_unlink, hpfs, hf]
          rw [h1]
          simp
        · have h1 : (cleanup_one failing fs p).1 = fs := by
            simp [cleanup_one, hpfs]
          rw [h1]
          exact hpfs
      exact hstep (cleanup_fs_subset failing rest _ p hmem2)
    · exact ih _ p h hf hmem2

theorem cleanup_log_spec (failing : String → Bool) :
    ∀ (tf fs : List String) (e : String),
      e ∈ (ResourceManager_cleanup failing tf fs).log →
      failing e = true ∧ e ∈ tf ∧ e ∈ fs := by
  intro tf
  induction tf with
  | nil =>
    intro fs e he
    simp [ResourceManager_cleanup] at he
  | cons p rest ih =>
    intro fs e he
    have he2 : e ∈ (cleanup_one failing fs p).2.toList ++
        (ResourceManager_cleanup failing rest (cleanup_one failing fs p).1).log := by
      simpa [ResourceManager_cleanup] using he
    rcases List.mem_append.mp he2 with h | h
    · by_cases hpfs : p ∈ fs
      · by_cases hf : failing p = true
        · have h2 : (cleanup_one failing fs p).2 = some p := by
            simp [cleanup_one, os_unlink, hpfs, hf]
          rw [h2] at h
          simp only [Option.toList_some, List.mem_singleton] at h
          subst h
          exact ⟨hf, List.mem_cons_self _ _, hpfs⟩
        · have h2 : (cleanup_one failing fs p).2 = none := by
            simp [cleanup_one, os_unlink, hpfs, hf]
          rw [h2] at h
          simp at h
      · have h2 : (cleanup_one failing fs p).2 = none := by
          simp [cleanup_one, hpfs]
        rw [h2] at h
        simp at h
    · obtain ⟨h1, h2, h3⟩ := ih _ e h
      exact ⟨h1, List.mem_cons_of_mem p h2, cleanup_one_subset failing fs p e h3⟩

/-- C9: ResourceManager.cleanup never raises — it is a total function, its
loop body catching every deletion exception — and on every recorded list of
temp files, including lists holding a path whose file was already deleted
out-of-band, it removes every recorded file not subject to a deletion
failure, never touches other files, logs only genuine deletion failures of
recorded and still-existing files, and resets the temp_files list. -/
theorem cleanup_best_effort (failing : String → Bool) (temp_files fs : List String) :
    (∀ p, p ∈ temp_files → failing p = false →
      p ∉ (ResourceManager_cleanup failing temp_files fs).fs) ∧
    (∀ q, q ∈ (ResourceManager_cleanup failing temp_files fs).fs → q ∈ fs) ∧
    (∀ e, e ∈ (ResourceManager_cleanup failing temp_files fs).log →
      failing e = true ∧ e ∈ temp_files ∧ e ∈ fs) ∧
    (ResourceManager_cleanup failing temp_files fs).temp_files = [] := by
  refine ⟨fun p hp hf => cleanup_removes failing temp_files fs p hp hf,
    fun q hq => cleanup_fs_subset failing temp_files fs q hq,
    fun e he => cleanup_log_spec failing temp_files fs e he, ?_⟩
  cases temp_files <;> rfl

theorem cleanup_best_effort_witness :
    "a" ∉ (ResourceManager_cleanup (fun _ => false) ["a", "b", "c"]
      ["a", "c", "keep"]).fs :=
  (cleanup_best_effort (fun _ => false) ["a", "b", "c"] ["a", "c", "keep"]).1
    "a" (by decide) rfl

/-- C10: upload_file validates its input before any network activity: a
missing file, a size strictly above MAX_FILE_SIZE (10 MB) or a lowercased
extension outside jpg/jpeg/png/webp each yield TripoValidationError at the
first failing check — a result under which no request is sent — and the
upload request is sent exactly when all three checks pass. -/
theorem upload_file_validates (f : FileInfo) :
    MAX_FILE_SIZE = 10 * 1024 * 1024 ∧
    SUPPORTED_FILE_TYPES = ["jpg", "jpeg", "png", "webp"] ∧
    (f.existsOnDisk = false → upload_file f = .validationError "File not found") ∧
    (f.existsOnDisk = true → MAX_FILE_SIZE < f.size →
      upload_file f = .validationError "File size exceeds maximum allowed size") ∧
    (f.existsOnDisk = true → f.size ≤ MAX_FILE_SIZE →
      SUPPORTED_FILE_TYPES.contains (lowerString f.ext) = false →
      upload_file f = .validationError "Unsupported file type") ∧
    (f.existsOnDisk = true → f.size ≤ MAX_FILE_SIZE →
      SUPPORTED_FILE_TYPES.contains (lowerString f.ext) = true →
      upload_file f = .requestSent (lowerString f.ext)) ∧
    (∀ msg ext2, upload_file f = .validationError msg →
      upload_file f ≠ .requestSent ext2) := by
  refine ⟨rfl, rfl, ?_, ?_, ?_, ?_, ?_⟩
  · intro h
    simp [upload_file, h]
  · intro h hs
    simp [upload_file, h, hs]
  · intro h hs hlow
    have hns : ¬ MAX_FILE_SIZE < f.size := Nat.not_lt.mpr hs
    simp at hlow
    simp [upload_file, h, hns, hlow]
  · intro h hs hlow
    have hns : ¬ MAX_FILE_SIZE < f.size := Nat.not_lt.mpr hs
    simp at hlow
    simp [upload_file, h, hns, hlow]
  · intro msg ext2 hv hr
    rw [hv] at hr
    exact UploadResult.noConfusion hr

theorem upload_file_validates_witness :
    upload_file ⟨true, 1000, "png"⟩ = .requestSent (lowerString "png") :=
  (upload_file_validates ⟨true, 1000, "png"⟩).2.2.2.2.2.1 rfl (by decide) (by decide)

end Tripo
